import Mathlib

/-
Verification of the ikape prediction service's feature-normalization and
post-processing core, shallowly embedded from:
  backend/predict_api.py, backend/modeling.py, api/index.py.
Python floats are modelled by rationals plus explicit NaN / signed-infinity
markers; scalar JSON values by the `Value` inductive.
-/

namespace Ikape

/-- A Python float value: a finite rational, NaN, or a signed infinity. -/
inductive PFloat where
  | num (q : ℚ)
  | nan
  | inf (neg : Bool)
  deriving DecidableEq, Repr

/-- A scalar JSON/Python value as received by the coercion layer. -/
inductive Value where
  | vnone
  | vbool (b : Bool)
  | vint (n : ℤ)
  | vfloat (f : PFloat)
  | vstr (s : String)
  deriving DecidableEq, Repr

/-- Whitespace characters stripped by Python's `str.strip()`. -/
def isPySpace (c : Char) : Bool :=
  c == ' ' || c == '\t' || c == '\n' || c == '\r' || c.toNat == 11 || c.toNat == 12

/-- Model of Python `str.strip()`. -/
def pyStrip (s : String) : String :=
  String.mk (((s.data.dropWhile isPySpace).reverse.dropWhile isPySpace).reverse)

/-- Model of Python `str.lower()` (ASCII case folding suffices here). -/
def pyLower (s : String) : String :=
  String.mk (s.data.map Char.toLower)

/-- Numeric value of a list of decimal digit characters. -/
def digitsVal (cs : List Char) : ℕ :=
  cs.foldl (fun a c => a * 10 + (c.toNat - 48)) 0

/-- Exponent part of a Python float literal: optional sign then digits,
consuming the whole remainder. -/
def parseExponent (cs : List Char) : Option ℤ :=
  let (sgn, t) : ℤ × List Char :=
    match cs with
    | '+' :: u => (1, u)
    | '-' :: u => (-1, u)
    | _ => (1, cs)
  let es := t.takeWhile Char.isDigit
  let rest := t.dropWhile Char.isDigit
  if es.isEmpty || !rest.isEmpty then none
  else some (sgn * (digitsVal es : ℤ))

/-- Unsigned mantissa (digits, optional fraction) with optional exponent. -/
def parseMantissa (cs : List Char) : Option ℚ :=
  let ds := cs.takeWhile Char.isDigit
  let r1 := cs.dropWhile Char.isDigit
  let (fs, r2) : List Char × List Char :=
    match r1 with
    | '.' :: t => (t.takeWhile Char.isDigit, t.dropWhile Char.isDigit)
    | _ => ([], r1)
  if ds.isEmpty && fs.isEmpty then none
  else
    let base : ℚ := (digitsVal ds : ℚ) + (digitsVal fs : ℚ) / (10 ^ fs.length)
    match r2 with
    | [] => some base
    | 'e' :: t =>
      match parseExponent t with
      | some e => some (base * (10 : ℚ) ^ e)
      | none => none
    | _ => none

/-- Model of Python's builtin `float(text)` for already-lowercased text:
optional sign, then `inf`/`infinity`/`nan` or a decimal literal with
optional fraction and exponent. (Digit-group underscores are not modelled;
no call site in the claims depends on them.) Returns `none` where Python
raises `ValueError`. -/
def pyFloat (s : String) : Option PFloat :=
  let cs := (pyStrip s).data
  let (neg, t) : Bool × List Char :=
    match cs with
    | '+' :: u => (false, u)
    | '-' :: u => (true, u)
    | _ => (false, cs)
  if t = "inf".data || t = "infinity".data then some (.inf neg)
  else if t = "nan".data then some .nan
  else
    match parseMantissa t with
    | some q => some (.num (if neg then -q else q))
    | none => none

/-- FREQ_MAP table, identical in backend/predict_api.py and api/index.py. -/
def FREQ_MAP : List (String × ℚ) :=
  [("never", 1), ("rarely", 2), ("sometimes", 3), ("often", 4)]

/-- TYPE_MAP of backend/predict_api.py (no `synthetic`, no `none` entry). -/
def TYPE_MAP_BACKEND : List (String × ℚ) :=
  [("organic", 1), ("non-organic", 2), ("non_organic", 2), ("nonorganic", 2)]

/-- TYPE_MAP of api/index.py (adds `synthetic` and `none`). -/
def TYPE_MAP_API : List (String × ℚ) :=
  [("organic", 1), ("non-organic", 2), ("non_organic", 2), ("nonorganic", 2),
   ("synthetic", 2), ("none", 0)]

/-- BOOL_MAP table, identical in both services. -/
def BOOL_MAP : List (String × ℚ) :=
  [("yes", 1), ("true", 1), ("1", 1), ("no", 0), ("false", 0), ("0", 0)]

/-- Shared string stage of `_to_number`: the lowered, stripped, non-empty
text is tried against the frequency, type and boolean tables in order,
then direct float parse, then 0.0. -/
def coerceText (typeMap : List (String × ℚ)) (text : String) : PFloat :=
  match FREQ_MAP.lookup text with
  | some v => .num v
  | none =>
    match typeMap.lookup text with
    | some v => .num v
    | none =>
      match BOOL_MAP.lookup text with
      | some v => .num v
      | none =>
        match pyFloat text with
        | some f => f
        | none => .num 0

/-- Shared body of `_to_number` (both services differ only in their
TYPE_MAP): None → 0.0; bool → 1.0/0.0; numbers with NaN → 0.0, others pass
through; strings are stripped and lowered, empty → 0.0, else the table
cascade. -/
def to_number_core (typeMap : List (String × ℚ)) (v : Value) : PFloat :=
  match v with
  | .vnone => .num 0
  | .vbool b => .num (if b then 1 else 0)
  | .vint n => .num (n : ℚ)
  | .vfloat f =>
    match f with
    | .nan => .num 0
    | x => x
  | .vstr s =>
    let text := pyLower (pyStrip s)
    if text = "" then .num 0 else coerceText typeMap text

/-- Embedding of `_to_number` from backend/predict_api.py. -/
def to_number_backend (v : Value) : PFloat :=
  to_number_core TYPE_MAP_BACKEND v

/-- Embedding of `_to_number` from api/index.py. -/
def to_number_api (v : Value) : PFloat :=
  to_number_core TYPE_MAP_API v

/-- Type table exactly as the specification words it: `organic`→1,
`non-organic` and its spelling variants→2, `none`→0. -/
def CLAIM_TYPE_TABLE : List (String × ℚ) :=
  [("organic", 1), ("non-organic", 2), ("non_organic", 2), ("nonorganic", 2),
   ("none", 0)]

/-- Numeric coercion as the specification describes it, with the
spec-worded type table. -/
def to_number_claim (v : Value) : PFloat :=
  to_number_core CLAIM_TYPE_TABLE v

/-- Embedding of `_normalize_grade_triplet` (identical in both services):
clip componentwise to ≥ 0, return (0,0,0) when the clipped sum is ≤ 0,
otherwise divide by the sum and multiply by 100. -/
def normalize_grade_triplet (fine premium commercial : ℚ) : ℚ × ℚ × ℚ :=
  let f := max fine 0
  let p := max premium 0
  let c := max commercial 0
  let total := f + p + c
  if total ≤ 0 then (0, 0, 0)
  else (f / total * 100, p / total * 100, c / total * 100)

/-- Reference algorithm as the specification words it: clip each component
to ≥ 0; if the clipped sum is ≤ 0 return (0,0,0); otherwise scale each
clipped component by 100/sum. -/
def ref_normalize_triplet (fine premium commercial : ℚ) : ℚ × ℚ × ℚ :=
  let f := max fine 0
  let p := max premium 0
  let c := max commercial 0
  let s := f + p + c
  if s ≤ 0 then (0, 0, 0)
  else (f * (100 / s), p * (100 / s), c * (100 / s))

/-- Model of Python `str(value)` for the scalar values above. Decimal
reprs of finite floats are approximated by the rational's string form;
no claim exercises that case. -/
def pyStr (v : Value) : String :=
  match v with
  | .vnone => "None"
  | .vbool b => if b then "True" else "False"
  | .vint n => toString n
  | .vfloat f =>
    match f with
    | .num q => toString q
    | .nan => "nan"
    | .inf neg => if neg then "-inf" else "inf"
  | .vstr s => s

/-- FEATURE_KEYS of backend/modeling.py: the 39-key extended schema. -/
def BACKEND_FEATURE_KEYS : List String :=
  ["farm_id", "cluster_id", "farm_size_ha", "elevation_m", "farm_cluster_count",
   "cluster_plant_share_pct", "cluster_tree_density_per_sqm", "plant_age_years",
   "number_of_plants", "fertilizer_type", "fertilizer_frequency", "pesticide_type",
   "pesticide_frequency", "pruning_interval_months", "shade_tree_present", "soil_ph",
   "avg_temp_c", "avg_rainfall_mm", "avg_humidity_pct", "flood_risk_level",
   "flood_events_count", "pre_total_trees", "pre_yield_kg", "pre_grade_fine",
   "pre_grade_premium", "pre_grade_commercial", "previous_fine_pct",
   "previous_premium_pct", "previous_commercial_pct", "bean_size_mm",
   "bean_screen_size", "bean_moisture", "defect_black_pct",
   "defect_mold_infested_pct", "defect_immature_pct", "defect_broken_pct",
   "defect_dried_cherries_pct", "defect_foreign_matter_pct", "pns_total_defects_pct"]

/-- FEATURE_KEYS of api/index.py: the 18-key simple schema. -/
def API_FEATURE_KEYS : List String :=
  ["plant_age_months", "number_of_plants", "fertilizer_type", "fertilizer_frequency",
   "pesticide_type", "pesticide_frequency", "pruning_interval_months",
   "shade_tree_present", "soil_ph", "avg_temp_c", "avg_rainfall_mm",
   "avg_humidity_pct", "previous_yield_per_tree", "previous_fine_pct",
   "previous_premium_pct", "previous_commercial_pct", "trees_productive_pct",
   "yield_trend"]

/-- Raw request `features` payload: a positional list, a key-value
mapping, or anything else (neither). -/
inductive RawFeatures where
  | list (vs : List Value)
  | map (m : List (String × Value))
  | other
  deriving Repr

/-- Python `dict.get(key)`: the bound value, or None when absent. -/
def mget (m : List (String × Value)) (k : String) : Value :=
  (m.lookup k).getD .vnone

/-- Embedding of `_feature_object` (backend/predict_api.py): a list is
zipped positionally against FEATURE_KEYS after a length check; a mapping
is projected onto FEATURE_KEYS via `get`; anything else is rejected. -/
def feature_object (features : RawFeatures) : Except String (List (String × Value)) :=
  match features with
  | .list vs =>
    if vs.length ≠ BACKEND_FEATURE_KEYS.length then
      .error ("Invalid feature length: expected " ++ toString BACKEND_FEATURE_KEYS.length ++
        ", received " ++ toString vs.length)
    else
      .ok (BACKEND_FEATURE_KEYS.zip vs)
  | .map m => .ok (BACKEND_FEATURE_KEYS.map fun k => (k, mget m k))
  | .other => .error "features must be either a list or an object"

/-- Embedding of `_map_fertilizer_type` (api/index.py). -/
def map_fertilizer_type (value : Value) : String :=
  match value with
  | .vnone => "none"
  | v =>
    let text := pyLower (pyStrip (pyStr v))
    if text ∈ ["organic", "natural"] then "organic"
    else if text ∈ ["synthetic", "chemical", "non-organic", "non_organic",
        "nonorganic", "inorganic"] then "synthetic"
    else "none"

/-- Embedding of `_map_pesticide_type` (api/index.py). -/
def map_pesticide_type (value : Value) : String :=
  match value with
  | .vnone => "none"
  | v =>
    let text := pyLower (pyStrip (pyStr v))
    if text ∈ ["organic", "natural", "bio"] then "organic"
    else if text ∈ ["synthetic", "chemical", "conventional"] then "synthetic"
    else "none"

/-- Embedding of `_map_frequency` (api/index.py). -/
def map_frequency (value : Value) : String :=
  match value with
  | .vnone => "never"
  | v =>
    let text := pyLower (pyStrip (pyStr v))
    if text ∈ ["never", "none", "0"] then "never"
    else if text ∈ ["rarely", "seldom", "occasionally"] then "rarely"
    else if text ∈ ["sometimes", "occasionally", "moderate"] then "sometimes"
    else if text ∈ ["often", "frequently", "regularly", "always"] then "often"
    else "never"

/-- Embedding of `_map_boolean` (api/index.py). -/
def map_boolean (value : Value) : Bool :=
  match value with
  | .vnone => false
  | .vbool b => b
  | v =>
    let text := pyLower (pyStrip (pyStr v))
    if text ∈ ["yes", "true", "1", "present", "available"] then true else false

/-- A value in the api's normalized feature record: float, categorical
string, or boolean. -/
inductive NormVal where
  | num (f : PFloat)
  | str (s : String)
  | bool (b : Bool)
  deriving DecidableEq, Repr

/-- Mapping branch of `_normalize_features` (api/index.py): the
standardized feature dictionary, in the source's insertion order
(numeric features first, then the categorical ones). -/
def normalize_map_api (m : List (String × Value)) : List (String × NormVal) :=
  [("plant_age_months", .num (to_number_api (mget m "plant_age_months"))),
   ("number_of_plants", .num (to_number_api (mget m "number_of_plants"))),
   ("pruning_interval_months", .num (to_number_api (mget m "pruning_interval_months"))),
   ("soil_ph", .num (to_number_api (mget m "soil_ph"))),
   ("avg_temp_c", .num (to_number_api (mget m "avg_temp_c"))),
   ("avg_rainfall_mm", .num (to_number_api (mget m "avg_rainfall_mm"))),
   ("avg_humidity_pct", .num (to_number_api (mget m "avg_humidity_pct"))),
   ("previous_yield_per_tree", .num (to_number_api (mget m "previous_yield_per_tree"))),
   ("previous_fine_pct", .num (to_number_api (mget m "previous_fine_pct"))),
   ("previous_premium_pct", .num (to_number_api (mget m "previous_premium_pct"))),
   ("previous_commercial_pct", .num (to_number_api (mget m "previous_commercial_pct"))),
   ("trees_productive_pct", .num (to_number_api (mget m "trees_productive_pct"))),
   ("yield_trend", .num (to_number_api (mget m "yield_trend"))),
   ("fertilizer_type", .str (map_fertilizer_type (mget m "fertilizer_type"))),
   ("fertilizer_frequency", .str (map_frequency (mget m "fertilizer_frequency"))),
   ("pesticide_type", .str (map_pesticide_type (mget m "pesticide_type"))),
   ("pesticide_frequency", .str (map_frequency (mget m "pesticide_frequency"))),
   ("shade_tree_present", .bool (map_boolean (mget m "shade_tree_present")))]

/-- Key order of the api's normalized record, as inserted by the source. -/
def API_RECORD_KEY_ORDER : List String :=
  ["plant_age_months", "number_of_plants", "pruning_interval_months", "soil_ph",
   "avg_temp_c", "avg_rainfall_mm", "avg_humidity_pct", "previous_yield_per_tree",
   "previous_fine_pct", "previous_premium_pct", "previous_commercial_pct",
   "trees_productive_pct", "yield_trend", "fertilizer_type", "fertilizer_frequency",
   "pesticide_type", "pesticide_frequency", "shade_tree_present"]

/-- Embedding of `_normalize_features` (api/index.py): a list is length
checked and zipped against API_FEATURE_KEYS, then the mapping branch
builds the standardized record; anything else is rejected. -/
def normalize_features_api (features : RawFeatures) :
    Except String (List (String × NormVal)) :=
  match features with
  | .list vs =>
    if vs.length ≠ API_FEATURE_KEYS.length then
      .error ("Invalid feature length: expected " ++ toString API_FEATURE_KEYS.length ++
        ", received " ++ toString vs.length)
    else
      .ok (normalize_map_api (API_FEATURE_KEYS.zip vs))
  | .map m => .ok (normalize_map_api m)
  | .other => .error "features must be either a list or a dictionary"

/-- FLOOD_RISK_CANONICAL of backend/modeling.py. -/
def FLOOD_RISK_CANONICAL : List String := ["none", "low", "medium", "high", "severe"]

/-- BEAN_SCREEN_CANONICAL of backend/modeling.py. -/
def BEAN_SCREEN_CANONICAL : List String :=
  ["extra-small", "small", "medium", "large", "extra-large"]

/-- Separator collapsing used in `_normalize_categorical_value`:
`text.replace("_", "-").replace(" ", "-")`; for single-character patterns
the two sequential replaces are exactly a character map. -/
def hyphenize (s : String) : String :=
  String.mk (s.data.map fun c => if c = '_' || c = ' ' then '-' else c)

/-- Model of Python `str.startswith` on our strings. -/
def strStartsWith (s p : String) : Bool :=
  decide (s.data.take p.data.length = p.data)

/-- Embedding of `_normalize_categorical_value` (backend/predict_api.py);
`none` stands for `np.nan`. -/
def normalize_categorical_value (key : String) (value : Value) : Option String :=
  match value with
  | .vnone => none
  | v =>
    let text := pyLower (pyStrip (pyStr v))
    if text = "" then none
    else if key = "fertilizer_frequency" ∨ key = "pesticide_frequency" then
      if strStartsWith text "often" then some "often"
      else if strStartsWith text "sometimes" then some "sometimes"
      else if strStartsWith text "rarely" then some "rarely"
      else if strStartsWith text "never" then some "never"
      else none
    else if key = "fertilizer_type" ∨ key = "pesticide_type" then
      let normalized := hyphenize text
      if normalized = "nonorganic" ∨ normalized = "non-organic" then some "non-organic"
      else if normalized = "organic" then some "organic"
      else none
    else if key = "shade_tree_present" then
      if text ∈ ["yes", "true", "1"] then some "yes"
      else if text ∈ ["no", "false", "0"] then some "no"
      else none
    else if key = "flood_risk_level" then
      let normalized := hyphenize text
      if normalized ∈ FLOOD_RISK_CANONICAL then some normalized else none
    else if key = "bean_screen_size" then
      let normalized := hyphenize text
      if normalized ∈ BEAN_SCREEN_CANONICAL then some normalized else none
    else some text

/-- One step of Python's `max(grades, key=grades.get)`: the running best
is replaced only when the candidate's value is strictly greater, so the
first-encountered maximum wins ties. -/
def pyMax2 (b x : String × ℚ) : String × ℚ :=
  if b.2 < x.2 then x else b

/-- Embedding of `_derive_grade_labels` (backend/predict_api.py): the
dominant grade is chosen by Python `max` over the insertion-ordered dict
Fine, Premium, Commercial (unrolled here as two `pyMax2` steps), and the
label by the fixed threshold cascade. -/
def derive_grade_labels (fine premium commercial : ℚ) : String × String :=
  let best := pyMax2 (pyMax2 ("Fine", fine) ("Premium", premium)) ("Commercial", commercial)
  let grade_label :=
    if 55 ≤ best.2 then best.1 ++ " Dominant"
    else if 70 ≤ fine + premium then "High-Quality Mix"
    else if 45 ≤ commercial then "Commercial Mix"
    else "Balanced Mix"
  (best.1, grade_label)

/-- Dominant grade as the specification words it: the largest of the
three values, ties broken by first occurrence in the fixed order Fine,
Premium, Commercial; paired with that largest value. -/
def spec_dominant_pair (fine premium commercial : ℚ) : String × ℚ :=
  let m := max fine (max premium commercial)
  (if fine = m then "Fine" else if premium = m then "Premium" else "Commercial", m)

/-- Label derivation as the specification words it, on top of
`spec_dominant_pair`. -/
def spec_derive_label (fine premium commercial : ℚ) : String × String :=
  let dp := spec_dominant_pair fine premium commercial
  let label :=
    if 55 ≤ dp.2 then dp.1 ++ " Dominant"
    else if 70 ≤ fine + premium then "High-Quality Mix"
    else if 45 ≤ commercial then "Commercial Mix"
    else "Balanced Mix"
  (dp.1, label)

/-- Python `round(x, 3)` rounds half to even; modelled on rationals as
rounding x·1000 to the nearest integer (ties to even) divided by 1000. -/
def round_half_even (q : ℚ) : ℤ :=
  let f := ⌊q⌋
  let r := q - f
  if r < 1 / 2 then f
  else if 1 / 2 < r then f + 1
  else if Even f then f else f + 1

/-- Model of Python `round(q, 3)`. -/
def py_round3 (q : ℚ) : ℚ :=
  (round_half_even (q * 1000) : ℚ) / 1000

/-- Numeric and label fields of a successful single-prediction response. -/
structure PredictResult where
  yield_kg : ℚ
  fine_grade_pct : ℚ
  premium_grade_pct : ℚ
  commercial_grade_pct : ℚ
  dominant_grade : String
  grade_label : String
  deriving DecidableEq, Repr

/-- Embedding of the post-model tail of `_predict_internal`
(backend/predict_api.py lines 263-275): normalize the grade triplet,
derive labels, clamp the yield to ≥ 0 and round every numeric field to 3
decimal places. -/
def predict_internal_post (yield_pred fine_pred premium_pred commercial_pred : ℚ) :
    PredictResult :=
  let t := normalize_grade_triplet fine_pred premium_pred commercial_pred
  let labels := derive_grade_labels t.1 t.2.1 t.2.2
  { yield_kg := py_round3 (max yield_pred 0)
    fine_grade_pct := py_round3 t.1
    premium_grade_pct := py_round3 t.2.1
    commercial_grade_pct := py_round3 t.2.2
    dominant_grade := labels.1
    grade_label := labels.2 }

/-! SHA-1, embedded over ℕ with explicit mod 2^32 arithmetic, for
`hash_identifier` (backend/modeling.py). -/

/-- Truncation to a 32-bit word. -/
def w32 (x : ℕ) : ℕ := x % 4294967296

/-- Bitwise combination of two 32-bit words, one bit per fuel step. -/
def bitOp (f : Bool → Bool → Bool) : ℕ → ℕ → ℕ → ℕ
  | 0, _, _ => 0
  | fuel + 1, x, y =>
    (if f (x % 2 = 1) (y % 2 = 1) then 1 else 0) + 2 * bitOp f fuel (x / 2) (y / 2)

/-- 32-bit bitwise exclusive or. -/
def xor32 (x y : ℕ) : ℕ := bitOp (fun a b => a != b) 32 x y

/-- 32-bit bitwise and. -/
def and32 (x y : ℕ) : ℕ := bitOp (fun a b => a && b) 32 x y

/-- 32-bit bitwise or. -/
def or32 (x y : ℕ) : ℕ := bitOp (fun a b => a || b) 32 x y

/-- 32-bit bitwise complement (on words < 2^32). -/
def not32 (x : ℕ) : ℕ := 4294967295 - x

/-- Left rotation of a 32-bit word by n bits. -/
def rotl (n x : ℕ) : ℕ := w32 (x * 2 ^ n + x / 2 ^ (32 - n))

/-- SHA-1 round function. -/
def sha1_f (i b c d : ℕ) : ℕ :=
  if i < 20 then or32 (and32 b c) (and32 (not32 b) d)
  else if i < 40 then xor32 (xor32 b c) d
  else if i < 60 then or32 (or32 (and32 b c) (and32 b d)) (and32 c d)
  else xor32 (xor32 b c) d

/-- SHA-1 round constants. -/
def sha1_k (i : ℕ) : ℕ :=
  if i < 20 then 0x5A827999
  else if i < 40 then 0x6ED9EBA1
  else if i < 60 then 0x8F1BBCDC
  else 0xCA62C1D6

/-- SHA-1 message padding: a 0x80 byte, zeros to 56 mod 64, then the
64-bit big-endian bit length. -/
def sha1_pad (msg : List ℕ) : List ℕ :=
  let ml := msg.length * 8
  let padLen := (119 - msg.length % 64) % 64
  msg ++ [128] ++ List.replicate padLen 0 ++
    [ml / 2 ^ 56 % 256, ml / 2 ^ 48 % 256, ml / 2 ^ 40 % 256, ml / 2 ^ 32 % 256,
     ml / 2 ^ 24 % 256, ml / 2 ^ 16 % 256, ml / 2 ^ 8 % 256, ml % 256]

/-- Message-schedule extension: append `count` further words, each the
1-rotation of the xor of the words 3, 8, 14 and 16 back. -/
def sha1_extend (count : ℕ) (w : List ℕ) : List ℕ :=
  match count with
  | 0 => w
  | k + 1 =>
    sha1_extend k (w ++ [rotl 1 (xor32 (xor32 (w.getD (w.length - 3) 0) (w.getD (w.length - 8) 0))
      (xor32 (w.getD (w.length - 14) 0) (w.getD (w.length - 16) 0)))])

/-- Compression of one 64-byte chunk into the running hash state. -/
def sha1_chunk (chunk : List ℕ) (h : ℕ × ℕ × ℕ × ℕ × ℕ) : ℕ × ℕ × ℕ × ℕ × ℕ :=
  let w16 := (List.range 16).map fun i =>
    chunk.getD (4 * i) 0 * 2 ^ 24 + chunk.getD (4 * i + 1) 0 * 2 ^ 16 +
      chunk.getD (4 * i + 2) 0 * 2 ^ 8 + chunk.getD (4 * i + 3) 0
  let ws := sha1_extend 64 w16
  let st := (List.range 80).foldl
    (fun (st : ℕ × ℕ × ℕ × ℕ × ℕ) i =>
      let temp := w32 (rotl 5 st.1 + sha1_f i st.2.1 st.2.2.1 st.2.2.2.1 +
        st.2.2.2.2 + sha1_k i + ws.getD i 0)
      (temp, st.1, rotl 30 st.2.1, st.2.2.1, st.2.2.2.1))
    (h.1, h.2.1, h.2.2.1, h.2.2.2.1, h.2.2.2.2)
  (w32 (h.1 + st.1), w32 (h.2.1 + st.2.1), w32 (h.2.2.1 + st.2.2.1),
   w32 (h.2.2.2.1 + st.2.2.2.1), w32 (h.2.2.2.2 + st.2.2.2.2))

/-- Fold the compression function over `fuel` consecutive 64-byte chunks. -/
def sha1_chunks (fuel : ℕ) (l : List ℕ) (h : ℕ × ℕ × ℕ × ℕ × ℕ) : ℕ × ℕ × ℕ × ℕ × ℕ :=
  match fuel with
  | 0 => h
  | k + 1 => sha1_chunks k (l.drop 64) (sha1_chunk (l.take 64) h)

/-- SHA-1 of a byte list: the five 32-bit state words. -/
def sha1 (msg : List ℕ) : ℕ × ℕ × ℕ × ℕ × ℕ :=
  let padded := sha1_pad msg
  sha1_chunks (padded.length / 64) padded
    (0x67452301, 0xEFCDAB89, 0x98BADCFE, 0x10325476, 0xC3D2E1F0)

/-- Lowercase hex character of a digit value. -/
def toHexChar (d : ℕ) : Char :=
  "0123456789abcdef".data.getD d '0'

/-- Big-endian hex-digit values of one 32-bit word. -/
def wordHexDigits (w : ℕ) : List ℕ :=
  [w / 16 ^ 7 % 16, w / 16 ^ 6 % 16, w / 16 ^ 5 % 16, w / 16 ^ 4 % 16,
   w / 16 ^ 3 % 16, w / 16 ^ 2 % 16, w / 16 % 16, w % 16]

/-- Hex-digit values of the full 160-bit digest (length 40). -/
def sha1_hex_digits (msg : List ℕ) : List ℕ :=
  let h := sha1 msg
  wordHexDigits h.1 ++ wordHexDigits h.2.1 ++ wordHexDigits h.2.2.1 ++
    wordHexDigits h.2.2.2.1 ++ wordHexDigits h.2.2.2.2

/-- Model of `hashlib.sha1(...).hexdigest()`. -/
def sha1_hexdigest (msg : List ℕ) : String :=
  String.mk ((sha1_hex_digits msg).map toHexChar)

/-- Hex-digit values of the lowercase hex alphabet. -/
def HEX_CHARS : List (Char × ℕ) :=
  [('0', 0), ('1', 1), ('2', 2), ('3', 3), ('4', 4), ('5', 5), ('6', 6),
   ('7', 7), ('8', 8), ('9', 9), ('a', 10), ('b', 11), ('c', 12), ('d', 13),
   ('e', 14), ('f', 15)]

/-- Value of a hex character, as `int(-, 16)` reads it; characters that
are not hex digits never occur in a digest. -/
def fromHexChar (c : Char) : ℕ :=
  (HEX_CHARS.lookup c).getD 0

/-- Model of Python `int(s, 16)` on hex-digit strings. -/
def parseHexNat (cs : List Char) : ℕ :=
  cs.foldl (fun a c => a * 16 + fromHexChar c) 0

/-- UTF-8 encoding of one code point. -/
def utf8EncodeChar (n : ℕ) : List ℕ :=
  if n < 128 then [n]
  else if n < 2048 then [192 + n / 64, 128 + n % 64]
  else if n < 65536 then [224 + n / 4096, 128 + n / 64 % 64, 128 + n % 64]
  else [240 + n / 262144, 128 + n / 4096 % 64, 128 + n / 64 % 64, 128 + n % 64]

/-- Model of Python `text.encode("utf-8")` as a byte list. -/
def utf8Bytes (s : String) : List ℕ :=
  s.data.foldr (fun c acc => utf8EncodeChar c.toNat ++ acc) []

/-- Embedding of `hash_identifier` (backend/modeling.py): None or a
string that strips to empty → 0.0; otherwise the first 12 hex characters
of the SHA-1 digest of the UTF-8 bytes of the stripped string, read as a
base-16 integer, returned as a float. -/
def hash_identifier (value : Option String) : ℚ :=
  match value with
  | none => 0
  | some v =>
    let text := pyStrip v
    if text = "" then 0
    else (parseHexNat ((sha1_hexdigest (utf8Bytes text)).data.take 12) : ℚ)

/-- A sample of the batch endpoint: an optional id and a features
payload. -/
structure BatchSample where
  id : Value
  features : RawFeatures

/-- One slot of the batch response: either a prediction or an error
string, each carrying the sample's id. -/
inductive BatchEntry where
  | prediction (id : Value) (result : PredictResult)
  | failure (id : Value) (msg : String)

/-- Embedding of `predict_batch` (identical in both services): empty
sample list short-circuits to an empty prediction list; otherwise each
sample is predicted in order, a per-sample exception being converted to
an error entry. The per-sample pipeline (assembly, model calls) is the
`predictOne` parameter, the models being external artifacts. -/
def predict_batch (predictOne : RawFeatures → Except String PredictResult)
    (samples : List BatchSample) : List BatchEntry :=
  if samples.isEmpty then []
  else
    samples.foldl
      (fun acc sample =>
        acc ++ [match predictOne sample.features with
                | .ok r => .prediction sample.id r
                | .error e => .failure sample.id e])
      []

/-- A loaded model artifact, exposing the optional `n_features_in_`
attribute scikit-learn estimators carry. -/
structure ModelArtifact where
  n_features_in : Option ℕ

/-- Embedding of the module-level check in backend/predict_api.py lines
79-84: only the yield model's width is consulted; an artifact without the
attribute passes; a mismatch raises RuntimeError (import fails, the
process never serves). -/
def backend_startup_check (yield_model grade_fine grade_premium grade_commercial :
    ModelArtifact) : Except String Unit :=
  match yield_model.n_features_in with
  | some n =>
    if n ≠ BACKEND_FEATURE_KEYS.length then
      .error ("Feature map mismatch: model expects " ++ toString n ++
        ", configured keys=" ++ toString BACKEND_FEATURE_KEYS.length)
    else .ok ()
  | none => .ok ()

/-- Embedding of the load block in api/index.py lines 95-112:
`models_loaded` records only whether `joblib.load` succeeded (the
argument is `some` artifacts on success, `none` on an exception). -/
def api_models_loaded
    (loaded : Option (ModelArtifact × ModelArtifact × ModelArtifact × ModelArtifact)) :
    Bool :=
  loaded.isSome

/-- Startup outcome of api/index.py: the load block catches every
exception and the module performs no width validation, so startup always
succeeds and the process begins serving. -/
def api_startup
    (loaded : Option (ModelArtifact × ModelArtifact × ModelArtifact × ModelArtifact)) :
    Except String Bool :=
  .ok (api_models_loaded loaded)

/-! Helper lemmas about the coercion tables and the triplet normalizer. -/

lemma lookup_getD_lt {B : ℕ} (hB : 0 < B) :
    ∀ l : List (Char × ℕ), (∀ p ∈ l, p.2 < B) → ∀ c, ((l.lookup c).getD 0) < B := by
  intro l
  induction l with
  | nil => intro _ c; simpa using hB
  | cons p t ih =>
    intro hl c
    obtain ⟨k, v⟩ := p
    simp only [List.lookup]
    cases hbe : (c == k) with
    | true =>
      simp only [Option.getD_some]
      exact hl (k, v) (List.mem_cons_self _ _)
    | false => exact ih (fun q hq => hl q (List.mem_cons_of_mem _ hq)) c

lemma fromHexChar_lt (c : Char) : fromHexChar c < 16 := by
  unfold fromHexChar
  exact lookup_getD_lt (by norm_num) HEX_CHARS (by decide) c

lemma parseHexNat_aux (cs : List Char) :
    ∀ a : ℕ, cs.foldl (fun a c => a * 16 + fromHexChar c) a < (a + 1) * 16 ^ cs.length := by
  induction cs with
  | nil => intro a; simp
  | cons c cs ih =>
    intro a
    simp only [List.foldl_cons, List.length_cons]
    calc cs.foldl (fun a c => a * 16 + fromHexChar c) (a * 16 + fromHexChar c)
        < (a * 16 + fromHexChar c + 1) * 16 ^ cs.length := ih _
      _ ≤ ((a + 1) * 16) * 16 ^ cs.length := by
          have := fromHexChar_lt c
          exact Nat.mul_le_mul_right _ (by omega)
      _ = (a + 1) * 16 ^ (cs.length + 1) := by ring

lemma parseHexNat_lt (cs : List Char) : parseHexNat cs < 16 ^ cs.length := by
  have h := parseHexNat_aux cs 0
  simpa [parseHexNat] using h

lemma foldl_append_eq_map {α β : Type} (f : α → β) :
    ∀ (l : List α) (acc : List β),
      l.foldl (fun a s => a ++ [f s]) acc = acc ++ l.map f := by
  intro l
  induction l with
  | nil => intro acc; simp
  | cons x xs ih =>
    intro acc
    simp only [List.foldl_cons, List.map_cons, ih]
    simp

lemma claim_type_lookup (t : String) :
    CLAIM_TYPE_TABLE.lookup t =
      if t = "none" then some 0 else TYPE_MAP_BACKEND.lookup t := by
  by_cases h1 : t = "organic"
  · subst h1; rfl
  by_cases h2 : t = "non-organic"
  · subst h2; rfl
  by_cases h3 : t = "non_organic"
  · subst h3; rfl
  by_cases h4 : t = "nonorganic"
  · subst h4; rfl
  by_cases h5 : t = "none"
  · subst h5; rfl
  have e1 : (t == "organic") = false := beq_eq_false_iff_ne.mpr h1
  have e2 : (t == "non-organic") = false := beq_eq_false_iff_ne.mpr h2
  have e3 : (t == "non_organic") = false := beq_eq_false_iff_ne.mpr h3
  have e4 : (t == "nonorganic") = false := beq_eq_false_iff_ne.mpr h4
  have e5 : (t == "none") = false := beq_eq_false_iff_ne.mpr h5
  simp [CLAIM_TYPE_TABLE, TYPE_MAP_BACKEND, List.lookup, e1, e2, e3, e4, e5, h5]

lemma api_type_lookup (t : String) :
    TYPE_MAP_API.lookup t =
      if t = "synthetic" then some 2 else CLAIM_TYPE_TABLE.lookup t := by
  by_cases h1 : t = "organic"
  · subst h1; rfl
  by_cases h2 : t = "non-organic"
  · subst h2; rfl
  by_cases h3 : t = "non_organic"
  · subst h3; rfl
  by_cases h4 : t = "nonorganic"
  · subst h4; rfl
  by_cases h5 : t = "synthetic"
  · subst h5; rfl
  by_cases h6 : t = "none"
  · subst h6; rfl
  have e1 : (t == "organic") = false := beq_eq_false_iff_ne.mpr h1
  have e2 : (t == "non-organic") = false := beq_eq_false_iff_ne.mpr h2
  have e3 : (t == "non_organic") = false := beq_eq_false_iff_ne.mpr h3
  have e4 : (t == "nonorganic") = false := beq_eq_false_iff_ne.mpr h4
  have e5 : (t == "synthetic") = false := beq_eq_false_iff_ne.mpr h5
  have e6 : (t == "none") = false := beq_eq_false_iff_ne.mpr h6
  simp [TYPE_MAP_API, CLAIM_TYPE_TABLE, List.lookup, e1, e2, e3, e4, e5, e6, h5]

lemma coerceText_backend_eq_claim (t : String) :
    coerceText TYPE_MAP_BACKEND t = coerceText CLAIM_TYPE_TABLE t := by
  unfold coerceText
  cases hf : FREQ_MAP.lookup t
  · rw [claim_type_lookup]
    by_cases hn : t = "none"
    · subst hn; decide
    · simp [hn]
  · rfl

lemma to_number_backend_eq_claim (v : Value) :
    to_number_backend v = to_number_claim v := by
  cases v with
  | vstr s =>
    unfold to_number_backend to_number_claim to_number_core
    by_cases he : pyLower (pyStrip s) = ""
    · simp [he]
    · simp only [he, if_false]
      exact coerceText_backend_eq_claim _
  | _ => rfl

lemma coerceText_api_eq_claim (t : String) (h : t ≠ "synthetic") :
    coerceText TYPE_MAP_API t = coerceText CLAIM_TYPE_TABLE t := by
  unfold coerceText
  cases hf : FREQ_MAP.lookup t
  · rw [api_type_lookup, if_neg h]
  · rfl

lemma ngt_total_pos {f p c : ℚ} (h : 0 < f ∨ 0 < p ∨ 0 < c) :
    0 < max f 0 + max p 0 + max c 0 := by
  have hf : (0 : ℚ) ≤ max f 0 := le_max_right _ _
  have hp : (0 : ℚ) ≤ max p 0 := le_max_right _ _
  have hc : (0 : ℚ) ≤ max c 0 := le_max_right _ _
  rcases h with h | h | h
  · have : f ≤ max f 0 := le_max_left _ _
    linarith
  · have : p ≤ max p 0 := le_max_left _ _
    linarith
  · have : c ≤ max c 0 := le_max_left _ _
    linarith

lemma ngt_pos_case {f p c : ℚ} (h : 0 < max f 0 + max p 0 + max c 0) :
    normalize_grade_triplet f p c =
      (max f 0 / (max f 0 + max p 0 + max c 0) * 100,
       max p 0 / (max f 0 + max p 0 + max c 0) * 100,
       max c 0 / (max f 0 + max p 0 + max c 0) * 100) := by
  simp only [normalize_grade_triplet, if_neg (not_le.mpr h)]

lemma ngt_nonneg_sum {f p c : ℚ} (h : 0 < f ∨ 0 < p ∨ 0 < c) :
    0 ≤ (normalize_grade_triplet f p c).1 ∧
    0 ≤ (normalize_grade_triplet f p c).2.1 ∧
    0 ≤ (normalize_grade_triplet f p c).2.2 ∧
    (normalize_grade_triplet f p c).1 + (normalize_grade_triplet f p c).2.1 +
      (normalize_grade_triplet f p c).2.2 = 100 := by
  have ht := ngt_total_pos h
  rw [ngt_pos_case ht]
  have hf : (0 : ℚ) ≤ max f 0 := le_max_right _ _
  have hp : (0 : ℚ) ≤ max p 0 := le_max_right _ _
  have hc : (0 : ℚ) ≤ max c 0 := le_max_right _ _
  refine ⟨?_, ?_, ?_, ?_⟩
  · exact mul_nonneg (div_nonneg hf ht.le) (by norm_num)
  · exact mul_nonneg (div_nonneg hp ht.le) (by norm_num)
  · exact mul_nonneg (div_nonneg hc ht.le) (by norm_num)
  · field_simp
    ring

lemma ngt_fixed {a b c : ℚ} (ha : 0 ≤ a) (hb : 0 ≤ b) (hc : 0 ≤ c)
    (hsum : a + b + c = 100) : normalize_grade_triplet a b c = (a, b, c) := by
  simp only [normalize_grade_triplet, max_eq_left ha, max_eq_left hb, max_eq_left hc, hsum]
  norm_num

lemma pyMax2_eq_spec_dominant (f p c : ℚ) :
    pyMax2 (pyMax2 ("Fine", f) ("Premium", p)) ("Commercial", c) =
      spec_dominant_pair f p c := by
  unfold pyMax2 spec_dominant_pair
  by_cases h1 : f < p
  · by_cases h2 : p < c
    · have hm : max f (max p c) = c := by
        rw [max_eq_right h2.le, max_eq_right (h1.trans h2).le]
      simp [h1, h2, hm, ne_of_lt (h1.trans h2), ne_of_lt h2]
    · have hc : c ≤ p := not_lt.mp h2
      have hm : max f (max p c) = p := by
        rw [max_eq_left hc, max_eq_right h1.le]
      simp [h1, h2, hm, ne_of_lt h1]
  · have hp : p ≤ f := not_lt.mp h1
    by_cases h2 : f < c
    · have hm : max f (max p c) = c := by
        rw [max_eq_right (hp.trans h2.le), max_eq_right h2.le]
      simp [h1, h2, hm, ne_of_lt h2, ne_of_lt (lt_of_le_of_lt hp h2)]
    · have hc : c ≤ f := not_lt.mp h2
      have hm : max f (max p c) = f := max_eq_left (max_le hp hc)
      simp [h1, h2, hm]

lemma round_half_even_close (q : ℚ) : |(round_half_even q : ℚ) - q| ≤ 1 / 2 := by
  simp only [round_half_even]
  have h0 : (⌊q⌋ : ℚ) ≤ q := Int.floor_le q
  have h1 : q < ⌊q⌋ + 1 := Int.lt_floor_add_one q
  split_ifs <;> (rw [abs_le]; push_cast; constructor <;> linarith)

lemma round_half_even_nonneg {q : ℚ} (h : 0 ≤ q) : 0 ≤ round_half_even q := by
  simp only [round_half_even]
  have h0 : 0 ≤ ⌊q⌋ := Int.floor_nonneg.mpr h
  split_ifs <;> omega

lemma py_round3_close (q : ℚ) : |py_round3 q - q| ≤ 1 / 2000 := by
  have h := round_half_even_close (q * 1000)
  have e : py_round3 q - q = ((round_half_even (q * 1000) : ℚ) - q * 1000) / 1000 := by
    unfold py_round3; ring
  rw [e, abs_div, show |(1000 : ℚ)| = 1000 by norm_num,
    div_le_iff₀ (by norm_num : (0 : ℚ) < 1000)]
  linarith

lemma py_round3_nonneg {q : ℚ} (h : 0 ≤ q) : 0 ≤ py_round3 q := by
  unfold py_round3
  have := round_half_even_nonneg (mul_nonneg h (by norm_num : (0 : ℚ) ≤ 1000))
  positivity

/-! Main theorems. -/

/-- C1: `normalize_grade_triplet` equals the reference algorithm (clip to
≥ 0; degenerate (0,0,0) when the clipped sum is ≤ 0; otherwise scale each
clipped component by 100/sum); when at least one input is positive the
outputs are non-negative and sum to exactly 100 (hence within 1e-6); every
all-non-positive triplet yields exactly (0,0,0); and (-2, 40, 60) maps to
(0, 40, 60). -/
theorem normalize_grade_triplet_spec :
    (∀ f p c : ℚ, normalize_grade_triplet f p c = ref_normalize_triplet f p c) ∧
    (∀ f p c : ℚ, (0 < f ∨ 0 < p ∨ 0 < c) →
      0 ≤ (normalize_grade_triplet f p c).1 ∧
      0 ≤ (normalize_grade_triplet f p c).2.1 ∧
      0 ≤ (normalize_grade_triplet f p c).2.2 ∧
      (normalize_grade_triplet f p c).1 + (normalize_grade_triplet f p c).2.1 +
        (normalize_grade_triplet f p c).2.2 = 100) ∧
    (∀ f p c : ℚ, f ≤ 0 → p ≤ 0 → c ≤ 0 → normalize_grade_triplet f p c = (0, 0, 0)) ∧
    normalize_grade_triplet (-2) 40 60 = (0, 40, 60) := by
  refine ⟨?_, fun f p c h => ngt_nonneg_sum h, ?_, ?_⟩
  · intro f p c
    simp only [normalize_grade_triplet, ref_normalize_triplet]
    split_ifs with h
    · rfl
    · exact Prod.ext (by ring) (Prod.ext (by ring) (by ring))
  · intro f p c hf hp hc
    simp only [normalize_grade_triplet, max_eq_right hf, max_eq_right hp, max_eq_right hc]
    norm_num
  · have h := ngt_nonneg_sum (f := -2) (p := 40) (c := 60) (Or.inr (Or.inl (by norm_num)))
    rw [ngt_pos_case (by norm_num)]
    norm_num

/-- Witness for C1 at the concrete positive triplet (1, 2, 3). -/
theorem normalize_grade_triplet_spec_witness :
    ((0 : ℚ) < 1 ∨ (0 : ℚ) < 2 ∨ (0 : ℚ) < 3) ∧
      (0 ≤ (normalize_grade_triplet 1 2 3).1 ∧
       0 ≤ (normalize_grade_triplet 1 2 3).2.1 ∧
       0 ≤ (normalize_grade_triplet 1 2 3).2.2 ∧
       (normalize_grade_triplet 1 2 3).1 + (normalize_grade_triplet 1 2 3).2.1 +
         (normalize_grade_triplet 1 2 3).2.2 = 100) :=
  ⟨Or.inl (by norm_num), normalize_grade_triplet_spec.2.1 1 2 3 (Or.inl (by norm_num))⟩

/-- C9: `normalize_grade_triplet` is idempotent (exactly, in the rational
model): applying it to its own output returns that output unchanged. -/
theorem normalize_grade_triplet_idempotent (f p c : ℚ) :
    normalize_grade_triplet (normalize_grade_triplet f p c).1
      (normalize_grade_triplet f p c).2.1 (normalize_grade_triplet f p c).2.2 =
      normalize_grade_triplet f p c := by
  by_cases ht : max f 0 + max p 0 + max c 0 ≤ 0
  · have h0 : normalize_grade_triplet f p c = (0, 0, 0) := by
      simp only [normalize_grade_triplet, if_pos ht]
    rw [h0]
    norm_num [normalize_grade_triplet]
  · push_neg at ht
    have hfpos : 0 < f ∨ 0 < p ∨ 0 < c := by
      by_contra hcon
      push_neg at hcon
      obtain ⟨h1, h2, h3⟩ := hcon
      rw [max_eq_right h1, max_eq_right h2, max_eq_right h3] at ht
      norm_num at ht
    obtain ⟨ha, hb, hc, hsum⟩ := ngt_nonneg_sum hfpos
    exact ngt_fixed ha hb hc hsum

/-- C3 (amended): `_to_number` is total by construction and, in the
backend service, agrees everywhere with the spec-worded precedence
(None/empty → 0; bool → 1/0; NaN → 0; numbers pass through; lowered and
trimmed strings tried against the frequency, type (`organic`→1,
`non-organic` spellings→2, `none`→0) and boolean tables, then float
parse, then 0). The api variant agrees except on strings whose trimmed
lowercase form is `synthetic`, which its extended type table sends to 2
while the spec-worded table yields 0. -/
theorem to_number_follows_claim_precedence :
    (∀ v : Value, to_number_backend v = to_number_claim v) ∧
    (∀ v : Value, to_number_api v = to_number_claim v ∨
      (∃ s : String, v = .vstr s ∧ pyLower (pyStrip s) = "synthetic" ∧
        to_number_api v = .num 2 ∧ to_number_claim v = .num 0)) := by
  refine ⟨to_number_backend_eq_claim, ?_⟩
  intro v
  cases v with
  | vstr s =>
    by_cases hsyn : pyLower (pyStrip s) = "synthetic"
    · refine Or.inr ⟨s, rfl, hsyn, ?_, ?_⟩ <;>
        · simp only [to_number_api, to_number_claim, to_number_core, hsyn]
          decide
    · left
      unfold to_number_api to_number_claim to_number_core
      by_cases he : pyLower (pyStrip s) = ""
      · simp [he]
      · simp only [he, if_false]
        exact coerceText_api_eq_claim _ hsyn
  | _ => exact Or.inl rfl

/-- C2 (amended): feature assembly fails exactly on a positional list of
wrong length (with a message stating expected vs received counts, e.g.
"expected 18, received 17") or on input that is neither list nor mapping;
every other input yields a record with exactly the canonical key set — in
canonical order in the backend assembler, while the api assembler emits
the 18 canonical keys in a fixed non-canonical order (numeric features
first, then categorical). -/
theorem feature_assembly_spec :
    (∀ vs : List Value, vs.length ≠ BACKEND_FEATURE_KEYS.length →
      feature_object (.list vs) =
        .error ("Invalid feature length: expected 39, received " ++ toString vs.length)) ∧
    (∀ vs : List Value, vs.length = BACKEND_FEATURE_KEYS.length →
      (feature_object (.list vs)).map (fun r => r.map Prod.fst) =
        .ok BACKEND_FEATURE_KEYS) ∧
    (∀ m, (feature_object (.map m)).map (fun r => r.map Prod.fst) =
      .ok BACKEND_FEATURE_KEYS) ∧
    feature_object .other = .error "features must be either a list or an object" ∧
    (∀ vs : List Value, vs.length ≠ API_FEATURE_KEYS.length →
      normalize_features_api (.list vs) =
        .error ("Invalid feature length: expected 18, received " ++ toString vs.length)) ∧
    normalize_features_api (.list (List.replicate 17 .vnone)) =
      .error "Invalid feature length: expected 18, received 17" ∧
    (∀ vs : List Value, vs.length = API_FEATURE_KEYS.length →
      (normalize_features_api (.list vs)).map (fun r => r.map Prod.fst) =
        .ok API_RECORD_KEY_ORDER) ∧
    (∀ m, (normalize_features_api (.map m)).map (fun r => r.map Prod.fst) =
      .ok API_RECORD_KEY_ORDER) ∧
    normalize_features_api .other =
      .error "features must be either a list or a dictionary" ∧
    API_RECORD_KEY_ORDER.Perm API_FEATURE_KEYS := by
  refine ⟨?_, ?_, ?_, rfl, ?_, rfl, ?_, ?_, rfl, by decide⟩
  · intro vs h
    simp only [feature_object, if_pos h]
    rfl
  · intro vs h
    simp only [feature_object, h, ne_eq, not_true_eq_false, if_false, Except.map]
    rw [List.map_fst_zip _ _ h.ge]
  · intro m
    simp only [feature_object, Except.map, List.map_map]
    exact congrArg Except.ok (List.map_id BACKEND_FEATURE_KEYS)
  · intro vs h
    simp only [normalize_features_api, if_pos h]
    rfl
  · intro vs h
    simp only [normalize_features_api, h, ne_eq, not_true_eq_false, if_false, Except.map]
    rfl
  · intro m
    rfl

/-- Witness for C2 at concrete inputs: the empty list is rejected by the
backend assembler with the expected/received message, and a mapping input
is assembled with the backend's canonical key order. -/
theorem feature_assembly_spec_witness :
    (([] : List Value).length ≠ BACKEND_FEATURE_KEYS.length ∧
      feature_object (.list []) =
        .error "Invalid feature length: expected 39, received 0") ∧
    (feature_object (.map [("soil_ph", .vint 6)])).map (fun r => r.map Prod.fst) =
      .ok BACKEND_FEATURE_KEYS :=
  ⟨⟨by decide, feature_assembly_spec.1 [] (by decide)⟩,
    feature_assembly_spec.2.2.1 [("soil_ph", .vint 6)]⟩

/-- Counterexample to C2 as stated: the api assembler's record key order
is not the canonical FEATURE_KEYS order (its third key is
`pruning_interval_months`, the canonical third key is `fertilizer_type`),
even though the key sets coincide. -/
theorem feature_assembly_key_order_cex :
    (normalize_features_api (.map [])).map (fun r => r.map Prod.fst) =
      .ok API_RECORD_KEY_ORDER ∧
    API_RECORD_KEY_ORDER ≠ API_FEATURE_KEYS :=
  ⟨rfl, by decide⟩

/-- C8 (amended): in the api assembler, the mapping input
fertilizer_type "Natural", pesticide_frequency "Occasionally",
shade_tree_present "Present" (other keys omitted) yields
fertilizer_type "organic", pesticide_frequency "rarely",
shade_tree_present true, and every other field at its default
(numerics 0.0, fertilizer_frequency "never", pesticide_type "none").
The backend's categorical normalizer instead maps all three inputs to
missing (NaN). -/
theorem scenario_mapping_assembly :
    normalize_features_api (.map
      [("fertilizer_type", .vstr "Natural"),
       ("pesticide_frequency", .vstr "Occasionally"),
       ("shade_tree_present", .vstr "Present")]) =
    .ok [("plant_age_months", .num (.num 0)),
         ("number_of_plants", .num (.num 0)),
         ("pruning_interval_months", .num (.num 0)),
         ("soil_ph", .num (.num 0)),
         ("avg_temp_c", .num (.num 0)),
         ("avg_rainfall_mm", .num (.num 0)),
         ("avg_humidity_pct", .num (.num 0)),
         ("previous_yield_per_tree", .num (.num 0)),
         ("previous_fine_pct", .num (.num 0)),
         ("previous_premium_pct", .num (.num 0)),
         ("previous_commercial_pct", .num (.num 0)),
         ("trees_productive_pct", .num (.num 0)),
         ("yield_trend", .num (.num 0)),
         ("fertilizer_type", .str "organic"),
         ("fertilizer_frequency", .str "never"),
         ("pesticide_type", .str "none"),
         ("pesticide_frequency", .str "rarely"),
         ("shade_tree_present", .bool true)] := by
  rfl

/-- Counterexample to C8 as stated for the cited backend normalizer:
`_normalize_categorical_value` sends "Natural", "Occasionally" and
"Present" to NaN (here `none`), not to "organic"/"rarely"/true. -/
theorem scenario_backend_categorical_cex :
    normalize_categorical_value "fertilizer_type" (.vstr "Natural") = none ∧
    normalize_categorical_value "pesticide_frequency" (.vstr "Occasionally") = none ∧
    normalize_categorical_value "shade_tree_present" (.vstr "Present") = none := by
  decide

/-- C4: `hash_identifier` is a pure deterministic function; None, the
empty string and whitespace-only strings map to 0.0; and for every string
with non-empty stripped form the result equals the base-16 reading of the
first 12 hex characters of the SHA-1 digest of the UTF-8 bytes, hence is
non-negative and below 16^12. -/
theorem hash_identifier_spec :
    (∀ v : Option String, hash_identifier v = hash_identifier v) ∧
    hash_identifier none = 0 ∧
    hash_identifier (some "") = 0 ∧
    (∀ s : String, pyStrip s = "" → hash_identifier (some s) = 0) ∧
    (∀ s : String, pyStrip s ≠ "" →
      hash_identifier (some s) =
        (parseHexNat ((sha1_hexdigest (utf8Bytes (pyStrip s))).data.take 12) : ℚ) ∧
      0 ≤ hash_identifier (some s) ∧
      hash_identifier (some s) < 16 ^ 12) := by
  refine ⟨fun v => rfl, rfl, rfl, ?_, ?_⟩
  · intro s h
    simp [hash_identifier, h]
  · intro s h
    have he : hash_identifier (some s) =
        (parseHexNat ((sha1_hexdigest (utf8Bytes (pyStrip s))).data.take 12) : ℚ) := by
      simp [hash_identifier, h]
    refine ⟨he, ?_, ?_⟩
    · rw [he]
      positivity
    · rw [he]
      have h1 := parseHexNat_lt ((sha1_hexdigest (utf8Bytes (pyStrip s))).data.take 12)
      have h2 : ((sha1_hexdigest (utf8Bytes (pyStrip s))).data.take 12).length ≤ 12 := by
        simp [List.length_take]
      have h3 : (16 : ℕ) ^ ((sha1_hexdigest (utf8Bytes (pyStrip s))).data.take 12).length ≤
          16 ^ 12 := Nat.pow_le_pow_right (by norm_num) h2
      exact_mod_cast lt_of_lt_of_le h1 h3

/-- Witness for C4 at the concrete identifier "abc". -/
theorem hash_identifier_spec_witness :
    pyStrip "abc" ≠ "" ∧
    (hash_identifier (some "abc") =
      (parseHexNat ((sha1_hexdigest (utf8Bytes (pyStrip "abc"))).data.take 12) : ℚ) ∧
    0 ≤ hash_identifier (some "abc") ∧
    hash_identifier (some "abc") < 16 ^ 12) :=
  ⟨by decide, hash_identifier_spec.2.2.2.2 "abc" (by decide)⟩

/-- C5: for every per-sample prediction function and every sample list,
`predict_batch` maps each sample in order to a prediction entry or, when
that sample's prediction fails, an error entry for that sample alone;
hence the result has exactly the input's length and the empty list yields
an empty predictions list. -/
theorem predict_batch_isolation
    (p : RawFeatures → Except String PredictResult) (samples : List BatchSample) :
    predict_batch p samples =
      samples.map (fun s =>
        match p s.features with
        | .ok r => BatchEntry.prediction s.id r
        | .error e => BatchEntry.failure s.id e) ∧
    (predict_batch p samples).length = samples.length ∧
    predict_batch p [] = [] := by
  have hmap : predict_batch p samples =
      samples.map (fun s =>
        match p s.features with
        | .ok r => BatchEntry.prediction s.id r
        | .error e => BatchEntry.failure s.id e) := by
    unfold predict_batch
    cases samples with
    | nil => rfl
    | cons x xs =>
      rw [if_neg (by simp)]
      rw [foldl_append_eq_map]
      simp
  exact ⟨hmap, by rw [hmap]; simp, rfl⟩

/-- C6 (amended): backend startup fails with the fatal mismatch error
exactly when the yield model artifact reports an input width differing
from the 39-key registry count; an artifact reporting no width passes,
the three grade models are never checked, and the api service performs no
width validation at all — its startup always succeeds, with
`models_loaded` recording only whether loading threw. -/
theorem model_loading_check_spec :
    (∀ y g1 g2 g3 : ModelArtifact, ∀ n : ℕ, y.n_features_in = some n →
      n ≠ BACKEND_FEATURE_KEYS.length →
      backend_startup_check y g1 g2 g3 =
        .error ("Feature map mismatch: model expects " ++ toString n ++
          ", configured keys=39")) ∧
    (∀ y g1 g2 g3 : ModelArtifact, y.n_features_in = some BACKEND_FEATURE_KEYS.length →
      backend_startup_check y g1 g2 g3 = .ok ()) ∧
    (∀ g1 g2 g3 : ModelArtifact, backend_startup_check ⟨none⟩ g1 g2 g3 = .ok ()) ∧
    (∀ g2 g3 : ModelArtifact, ∀ n : ℕ,
      backend_startup_check ⟨some BACKEND_FEATURE_KEYS.length⟩ ⟨some n⟩ g2 g3 = .ok ()) ∧
    (∀ loaded, api_startup loaded = .ok (api_models_loaded loaded)) := by
  refine ⟨?_, ?_, fun g1 g2 g3 => rfl, fun g2 g3 n => rfl, fun loaded => rfl⟩
  · intro y g1 g2 g3 n hy hn
    simp only [backend_startup_check, hy, if_pos hn]
    rw [String.append_assoc]
    rfl
  · intro y g1 g2 g3 hy
    simp only [backend_startup_check, hy]
    rw [if_neg (by simp)]

/-- Witness for C6: a yield artifact reporting width 5 is rejected at
backend startup with the mismatch message. -/
theorem model_loading_check_spec_witness :
    (ModelArtifact.mk (some 5)).n_features_in = some 5 ∧
    (5 : ℕ) ≠ BACKEND_FEATURE_KEYS.length ∧
    backend_startup_check ⟨some 5⟩ ⟨some 5⟩ ⟨some 5⟩ ⟨some 5⟩ =
      .error "Feature map mismatch: model expects 5, configured keys=39" :=
  ⟨rfl, by decide,
    model_loading_check_spec.1 ⟨some 5⟩ ⟨some 5⟩ ⟨some 5⟩ ⟨some 5⟩ 5 rfl (by decide)⟩

/-- Counterexample to C6 as stated: the api service loads artifacts of
width 5 ≠ 18 without any fatal error — startup succeeds and
`models_loaded` is true — and backend startup passes even though every
grade artifact reports width 5 ≠ 39, since only the yield model is
checked. -/
theorem model_loading_unchecked_cex :
    api_startup (some (⟨some 5⟩, ⟨some 5⟩, ⟨some 5⟩, ⟨some 5⟩)) = .ok true ∧
    (5 : ℕ) ≠ API_FEATURE_KEYS.length ∧
    backend_startup_check ⟨some 39⟩ ⟨some 5⟩ ⟨some 5⟩ ⟨some 5⟩ = .ok () ∧
    (5 : ℕ) ≠ BACKEND_FEATURE_KEYS.length :=
  ⟨rfl, by decide, rfl, by decide⟩

/-- C7: `_derive_grade_labels` returns the dominant grade (the largest of
fine, premium, commercial, ties to the first in the fixed order Fine,
Premium, Commercial) and the label chosen by: dominant value ≥ 55 →
"<Dominant> Dominant"; else fine + premium ≥ 70 → "High-Quality Mix";
else commercial ≥ 45 → "Commercial Mix"; else "Balanced Mix". -/
theorem derive_grade_labels_spec (f p c : ℚ) :
    derive_grade_labels f p c = spec_derive_label f p c := by
  simp only [derive_grade_labels, spec_derive_label, pyMax2_eq_spec_dominant]

/-- C10: in a successful single-prediction response every numeric field is
rounded to 3 decimal places and the yield is clamped to ≥ 0 before
rounding, so `yield_kg` is always non-negative; when at least one raw
grade is positive the three rounded grade percentages sum to 100 only
within the rounding granularity (at most 3/2000 = 1.5e-3 deviation), and
the deviation is realized: raw grades (1,1,1) round to a sum of 99.999. -/
theorem predict_internal_rounding_spec :
    (∀ y f p c : ℚ, 0 ≤ (predict_internal_post y f p c).yield_kg) ∧
    (∀ y f p c : ℚ, (0 < f ∨ 0 < p ∨ 0 < c) →
      |(predict_internal_post y f p c).fine_grade_pct +
        (predict_internal_post y f p c).premium_grade_pct +
        (predict_internal_post y f p c).commercial_grade_pct - 100| ≤ 3 / 2000) ∧
    (predict_internal_post 0 1 1 1).fine_grade_pct +
      (predict_internal_post 0 1 1 1).premium_grade_pct +
      (predict_internal_post 0 1 1 1).commercial_grade_pct = 99999 / 1000 := by
  refine ⟨?_, ?_, ?_⟩
  · intro y f p c
    exact py_round3_nonneg (le_max_right _ _)
  · intro y f p c h
    obtain ⟨_, _, _, hsum⟩ := ngt_nonneg_sum h
    simp only [predict_internal_post]
    set a := (normalize_grade_triplet f p c).1 with ha
    set b := (normalize_grade_triplet f p c).2.1 with hb
    set d := (normalize_grade_triplet f p c).2.2 with hd
    have e : py_round3 a + py_round3 b + py_round3 d - 100 =
        (py_round3 a - a) + (py_round3 b - b) + (py_round3 d - d) := by
      linarith
    rw [e]
    have t1 := py_round3_close a
    have t2 := py_round3_close b
    have t3 := py_round3_close d
    calc |py_round3 a - a + (py_round3 b - b) + (py_round3 d - d)|
        ≤ |py_round3 a - a + (py_round3 b - b)| + |py_round3 d - d| := abs_add _ _
      _ ≤ |py_round3 a - a| + |py_round3 b - b| + |py_round3 d - d| := by
          have := abs_add (py_round3 a - a) (py_round3 b - b)
          linarith
      _ ≤ 3 / 2000 := by linarith
  · have hfloor : ⌊(100000 : ℚ) / 3⌋ = 33333 := by
      rw [Int.floor_eq_iff]
      constructor <;> norm_num
    have hrhe : round_half_even ((100 : ℚ) / 3 * 1000) = 33333 := by
      have e : (100 : ℚ) / 3 * 1000 = 100000 / 3 := by ring
      simp only [round_half_even, e, hfloor]
      rw [if_pos (by push_cast; norm_num)]
    have hn : normalize_grade_triplet 1 1 1 = (100 / 3, 100 / 3, 100 / 3) := by
      have h1 : max (1 : ℚ) 0 = 1 := max_eq_left zero_le_one
      rw [ngt_pos_case (by rw [h1]; norm_num)]
      rw [h1]
      norm_num
    simp only [predict_internal_post, hn, py_round3, hrhe]
    norm_num

/-- Witness for C10 at the concrete raw prediction (0, 1, 1, 1). -/
theorem predict_internal_rounding_spec_witness :
    ((0 : ℚ) < 1 ∨ (0 : ℚ) < 1 ∨ (0 : ℚ) < 1) ∧
      |(predict_internal_post 0 1 1 1).fine_grade_pct +
        (predict_internal_post 0 1 1 1).premium_grade_pct +
        (predict_internal_post 0 1 1 1).commercial_grade_pct - 100| ≤ 3 / 2000 :=
  ⟨Or.inl (by norm_num),
    predict_internal_rounding_spec.2.1 0 1 1 1 (Or.inl (by norm_num))⟩

/-- Counterexample to C3 as stated: on the input string `synthetic` the
two cited `_to_number` implementations disagree (api: 2.0, backend: 0.0),
and the api variant departs from the claim's exact table description,
which yields 0.0. -/
theorem to_number_claim_counterexample :
    to_number_api (.vstr "synthetic") = .num 2 ∧
    to_number_backend (.vstr "synthetic") = .num 0 ∧
    to_number_claim (.vstr "synthetic") = .num 0 := by
  decide

